import Mathlib

/-!
# `hello-world-mpi/mpitest.c`: the MPI greeting program

A shallow embedding of `main` of `src/hello-world-mpi/mpitest.c`.

The program talks to two collaborators: the MPI runtime (five calls) and the
C standard streams (`fprintf`).  Both are made explicit:

* `Runtime` records what the runtime answers to each call of one run
  (return codes and the values written through the out-pointers);
* `World` is the chronological trace of externally visible actions of the
  process: runtime calls and writes to `stdout` / `stderr`.

`main` is then a function from the command line and a `Runtime` to the value it
returns (the exit status) and the final `World`.
-/

namespace MpiTest

/-! ## Constants of the headers -/

/-- Modelled from the spec: the constant `MPI_SUCCESS` is declared in `<mpi.h>`,
which is not part of the source file; the MPI standard fixes it to `0`.
`main` only ever compares return codes with it. -/
def MPI_SUCCESS : Int := 0

/-- Modelled from the spec: the constant `EXIT_SUCCESS` is declared in `<stdlib.h>`;
the spec gives exit code `0` on success. -/
def EXIT_SUCCESS : Int := 0

/-- Modelled from the spec: the constant `EXIT_FAILURE` is declared in `<stdlib.h>`;
the spec gives exit code `1` (generic failure). -/
def EXIT_FAILURE : Int := 1

/-! ## Data model -/

/-- The runtime calls that occur in `main`. -/
inductive Call where
  | MPI_Init
  | MPI_Comm_size
  | MPI_Comm_rank
  | MPI_Get_processor_name
  | MPI_Finalize
deriving DecidableEq, Repr

/-- The two standard streams `main` writes to. -/
inductive Stream where
  | stdout
  | stderr
deriving DecidableEq, Repr

/-- One externally visible action of the process. -/
inductive Event where
  | call (c : Call)
  | write (s : Stream) (text : String)
deriving DecidableEq, Repr

/-- What the MPI runtime answers during one run: the return code of each call and
the values it stores through the out-pointers (`&size`, `&myrank`,
`processor_name`, `&name_len`).  All integers are C `int`s, embedded in `Int`. -/
structure Runtime where
  initRc : Int
  sizeRc : Int
  size : Int
  rankRc : Int
  rank : Int
  nameRc : Int
  processor_name : String
  name_len : Int
  finalizeRc : Int
deriving DecidableEq, Repr

/-- The trace of externally visible actions so far, oldest first. -/
structure World where
  events : List Event
deriving DecidableEq, Repr

/-- The world at process start: nothing has happened yet. -/
def World.start : World := ⟨[]⟩

/-- Append one action to the trace. -/
def World.log (w : World) (e : Event) : World := ⟨w.events ++ [e]⟩

/-! ## `fprintf` -/

/-- Digits (and sign) that the `%d` conversion prints for an `int`: a leading `-`
for negative values, then the decimal digits of the magnitude, most significant
first, without leading zeros. -/
def decimalChars : Int → List Char
  | Int.ofNat n => Nat.toDigits 10 n
  | Int.negSucc n => '-' :: Nat.toDigits 10 (n + 1)

/-- The `%d` rendering as a string. -/
def decimal (i : Int) : String := String.mk (decimalChars i)

/-- Expansion of a `printf` format: every `%d` that still has an argument is
replaced by the decimal rendering of the next argument, every other character is
copied.  (`%d` is the only conversion the program uses.) -/
def formatChars : List Char → List Int → List Char
  | [], _ => []
  | [c], _ => [c]
  | c :: d :: rest, args =>
    if c = '%' ∧ d = 'd' then
      match args with
      | a :: more => decimalChars a ++ formatChars rest more
      | [] => c :: formatChars (d :: rest) []
    else c :: formatChars (d :: rest) args

/-- The call `fprintf (stream, fmt, args...)`: the expanded text is written to the stream. -/
def fprintf (s : Stream) (fmt : String) (args : List Int) (w : World) : World :=
  w.log (Event.write s (String.mk (formatChars fmt.data args)))

/-! ## The runtime calls -/

/-- The call `MPI_Init (&argc, &argv)`: returns the code the runtime answers. -/
def MPI_Init (rt : Runtime) (_argc : Int) (_argv : List String) (w : World) : Int × World :=
  (rt.initRc, w.log (Event.call Call.MPI_Init))

/-- The call `MPI_Comm_size (MPI_COMM_WORLD, &size)`: return code and the value stored in `size`. -/
def MPI_Comm_size (rt : Runtime) (w : World) : Int × Int × World :=
  (rt.sizeRc, rt.size, w.log (Event.call Call.MPI_Comm_size))

/-- The call `MPI_Comm_rank (MPI_COMM_WORLD, &myrank)`: return code and the value stored in `myrank`. -/
def MPI_Comm_rank (rt : Runtime) (w : World) : Int × Int × World :=
  (rt.rankRc, rt.rank, w.log (Event.call Call.MPI_Comm_rank))

/-- The call `MPI_Get_processor_name (processor_name, &name_len)`: return code, the name
and its length. -/
def MPI_Get_processor_name (rt : Runtime) (w : World) : Int × String × Int × World :=
  (rt.nameRc, rt.processor_name, rt.name_len, w.log (Event.call Call.MPI_Get_processor_name))

/-- The call `MPI_Finalize ()`: returns the code the runtime answers. -/
def MPI_Finalize (rt : Runtime) (w : World) : Int × World :=
  (rt.finalizeRc, w.log (Event.call Call.MPI_Finalize))

/-! ## `main` -/

/-- The code at the label `exit_with_error`: finalize (the return value is discarded)
and return `EXIT_FAILURE`. -/
def exit_with_error (rt : Runtime) (w : World) : Int × World :=
  let (_, w) := MPI_Finalize rt w
  (EXIT_FAILURE, w)

/-- The function `main` of `mpitest.c`, statement by statement. -/
def main (argc : Int) (argv : List String) (rt : Runtime) : Int × World :=
  let w := World.start
  let (rc, w) := MPI_Init rt argc argv w
  if rc ≠ MPI_SUCCESS then
    let w := fprintf Stream.stderr "MPI_Init() failed" [] w
    (EXIT_FAILURE, w)
  else
  let (rc, size, w) := MPI_Comm_size rt w
  if rc ≠ MPI_SUCCESS then
    let w := fprintf Stream.stderr "MPI_Comm_size() failed" [] w
    exit_with_error rt w
  else
  let (rc, myrank, w) := MPI_Comm_rank rt w
  if rc ≠ MPI_SUCCESS then
    let w := fprintf Stream.stderr "MPI_Comm_rank() failed" [] w
    exit_with_error rt w
  else
  let (rc, _processor_name, _name_len, w) := MPI_Get_processor_name rt w
  if rc ≠ MPI_SUCCESS then
    let w := fprintf Stream.stderr "MPI_Get_processor_name() failed" [] w
    exit_with_error rt w
  else
  let w := fprintf Stream.stdout "Hello, I am rank %d of %d total ranks\n" [myrank, size] w
  let (_, w) := MPI_Finalize rt w
  (EXIT_SUCCESS, w)

/-! ## Observations of a run -/

/-- Exit status of a run. -/
def exitStatus (r : Int × World) : Int := r.1

/-- Chronological trace of a run. -/
def trace (r : Int × World) : List Event := r.2.events

/-- The runtime calls in a trace, in order. -/
def callsOf : List Event → List Call
  | [] => []
  | Event.call c :: es => c :: callsOf es
  | Event.write _ _ :: es => callsOf es

/-- The texts written to stream `s` in a trace, one entry per `fprintf`, in order. -/
def writesTo (s : Stream) : List Event → List String
  | [] => []
  | Event.call _ :: es => writesTo s es
  | Event.write t text :: es => if t = s then text :: writesTo s es else writesTo s es

/-- The runtime calls of a run. -/
def calls (r : Int × World) : List Call := callsOf (trace r)

/-- Everything a run wrote to standard output. -/
def stdoutText (r : Int × World) : String :=
  String.mk ((writesTo Stream.stdout (trace r)).map String.data).flatten

/-- Everything a run wrote to standard error. -/
def stderrText (r : Int × World) : String :=
  String.mk ((writesTo Stream.stderr (trace r)).map String.data).flatten

/-! ## Vocabulary of the specification -/

/-- The greeting line for a rank and a size, spelled the way the specification words it. -/
def greeting (rank size : Int) : String :=
  "Hello, I am rank " ++ decimal rank ++ " of " ++ decimal size ++ " total ranks\n"

/-- A text that consists of exactly one newline-terminated line: it ends in a newline
and contains no other newline. -/
def isOneLine (s : String) : Prop :=
  s.data.getLast? = some '\n' ∧ s.data.count '\n' = 1

instance (s : String) : Decidable (isOneLine s) := by
  unfold isOneLine
  exact inferInstance

/-- Does the pattern occur somewhere in the text (as a contiguous block)? -/
def occursIn (pat : List Char) : List Char → Bool
  | [] => pat.isPrefixOf []
  | c :: cs => pat.isPrefixOf (c :: cs) || occursIn pat cs

/-- A diagnostic text names a runtime call when the identifier of the call occurs in it. -/
def mentions (text name : String) : Bool := occursIn name.data text.data

/-- All four steps whose failure `main` checks succeeded. -/
def allSucceed (rt : Runtime) : Prop :=
  rt.initRc = MPI_SUCCESS ∧ rt.sizeRc = MPI_SUCCESS ∧ rt.rankRc = MPI_SUCCESS ∧
    rt.nameRc = MPI_SUCCESS

instance (rt : Runtime) : Decidable (allSucceed rt) := by
  unfold allSucceed
  exact inferInstance

/-- The first checked step that returned a non-success code, if any. -/
def firstFailure (rt : Runtime) : Option Call :=
  if rt.initRc ≠ MPI_SUCCESS then some Call.MPI_Init
  else if rt.sizeRc ≠ MPI_SUCCESS then some Call.MPI_Comm_size
  else if rt.rankRc ≠ MPI_SUCCESS then some Call.MPI_Comm_rank
  else if rt.nameRc ≠ MPI_SUCCESS then some Call.MPI_Get_processor_name
  else none

/-- Read an unsigned decimal number from the front of a text, stopping at the first
character that is not a digit. -/
def readNat : Nat → List Char → Nat
  | acc, [] => acc
  | acc, c :: cs => if c.isDigit then readNat (10 * acc + (c.toNat - 48)) cs else acc

/-- Read a signed decimal number from the front of a text; at least one digit is required. -/
def readInt : List Char → Option Int
  | [] => none
  | c :: cs =>
    if c = '-' then
      match cs with
      | [] => none
      | d :: _ => if d.isDigit then some (-(readNat 0 cs : Int)) else none
    else if c.isDigit then some (readNat 0 (c :: cs) : Int)
    else none

/-- Remove a fixed lead from the front of a text, if the text starts with it. -/
def dropLead : List Char → List Char → Option (List Char)
  | [], text => some text
  | _ :: _, [] => none
  | p :: ps, c :: cs => if p = c then dropLead ps cs else none

/-- Recover the rank value from a greeting line: the number that follows
`Hello, I am rank `. -/
def recoverRank (line : String) : Option Int :=
  (dropLead "Hello, I am rank ".data line.data).bind readInt

/-- The standard-output texts of `N` cooperating instances, instance `r` being
answered by the runtime `rt r`, listed by instance. -/
def aggregateStdout (N : Nat) (argc : Int) (argv : List String) (rt : Nat → Runtime) :
    List String :=
  (List.range N).map (fun r => stdoutText (main argc argv (rt r)))

/-- A sample runtime in which every call succeeds. -/
def okRuntime (rank size : Int) : Runtime :=
  ⟨MPI_SUCCESS, MPI_SUCCESS, size, MPI_SUCCESS, rank, MPI_SUCCESS, "node0", 5, MPI_SUCCESS⟩

/-- A sample runtime whose first failing step is chosen by the four return codes. -/
def sampleRuntime (initRc sizeRc rankRc nameRc : Int) : Runtime :=
  ⟨initRc, sizeRc, 4, rankRc, 2, nameRc, "node0", 5, MPI_SUCCESS⟩

/-! ## Decimal rendering -/

theorem digitChar_isDigit (m : Nat) (h : m < 10) :
    (Nat.digitChar m).isDigit = true ∧ (Nat.digitChar m).toNat - 48 = m := by
  interval_cases m <;> decide

theorem toDigitsCore_shape (fuel : Nat) : ∀ (n : Nat) (ds : List Char),
    ∃ pre, Nat.toDigitsCore 10 fuel n ds = pre ++ ds ∧ (∀ c ∈ pre, c.isDigit = true) ∧
      (0 < fuel → pre ≠ []) := by
  induction fuel with
  | zero => intro n ds; exact ⟨[], by simp [Nat.toDigitsCore]⟩
  | succ fuel ih =>
    intro n ds
    have hd := (digitChar_isDigit (n % 10) (Nat.mod_lt _ (by decide))).1
    by_cases hq : n / 10 = 0
    · refine ⟨[Nat.digitChar (n % 10)], ?_, ?_, ?_⟩
      · simp [Nat.toDigitsCore, hq]
      · intro c hc; simp at hc; rw [hc]; exact hd
      · intro _; simp
    · obtain ⟨pre, hpre, hdig, _⟩ := ih (n / 10) (Nat.digitChar (n % 10) :: ds)
      refine ⟨pre ++ [Nat.digitChar (n % 10)], ?_, ?_, ?_⟩
      · simp [Nat.toDigitsCore, hq, hpre]
      · intro c hc
        rcases List.mem_append.1 hc with h | h
        · exact hdig c h
        · simp at h; rw [h]; exact hd
      · intro _; simp

theorem readNat_toDigitsCore (fuel : Nat) : ∀ (n : Nat) (ds : List Char), n < fuel →
    readNat 0 (Nat.toDigitsCore 10 fuel n ds) = readNat n ds := by
  induction fuel with
  | zero => intro n ds h; omega
  | succ fuel ih =>
    intro n ds h
    have hd := digitChar_isDigit (n % 10) (Nat.mod_lt _ (by decide))
    by_cases hq : n / 10 = 0
    · have hn : n % 10 = n := by omega
      rw [hn] at hd
      simp [Nat.toDigitsCore, hq, readNat, hd.1, hd.2, hn]
    · have hlt : n / 10 < fuel := by omega
      have hn : 10 * (n / 10) + n % 10 = n := by omega
      simp [Nat.toDigitsCore, hq, ih (n / 10) _ hlt, readNat, hd.1, hd.2, hn]

theorem toDigitsCore_append (fuel : Nat) : ∀ (n : Nat) (ds rest : List Char),
    Nat.toDigitsCore 10 fuel n ds ++ rest = Nat.toDigitsCore 10 fuel n (ds ++ rest) := by
  induction fuel with
  | zero => intro n ds rest; simp [Nat.toDigitsCore]
  | succ fuel ih =>
    intro n ds rest
    by_cases hq : n / 10 = 0
    · simp [Nat.toDigitsCore, hq]
    · simp [Nat.toDigitsCore, hq, ih]

theorem toDigits_digits (n : Nat) :
    (∀ c ∈ Nat.toDigits 10 n, c.isDigit = true) ∧ Nat.toDigits 10 n ≠ [] := by
  obtain ⟨pre, hpre, hdig, hne⟩ := toDigitsCore_shape (n + 1) n []
  have : Nat.toDigits 10 n = pre := by simpa [Nat.toDigits] using hpre
  rw [this]
  exact ⟨hdig, hne (Nat.succ_pos n)⟩

theorem readNat_toDigits (n : Nat) (rest : List Char) :
    readNat 0 (Nat.toDigits 10 n ++ rest) = readNat n rest := by
  unfold Nat.toDigits
  rw [toDigitsCore_append, List.nil_append]
  exact readNat_toDigitsCore (n + 1) n rest (Nat.lt_succ_self n)

theorem isDigit_ne (c : Char) (h : c.isDigit = true) : c ≠ '-' ∧ c ≠ '\n' := by
  constructor <;> (intro hc; rw [hc] at h; revert h; decide)

theorem readInt_decimalChars (i : Int) (tail : List Char) :
    readInt (decimalChars i ++ ' ' :: tail) = some i := by
  cases i with
  | ofNat n =>
    obtain ⟨hdig, hne⟩ := toDigits_digits n
    have hr := readNat_toDigits n (' ' :: tail)
    cases hds : Nat.toDigits 10 n with
    | nil => exact absurd hds hne
    | cons c cs =>
      have hc : c.isDigit = true := hdig c (by rw [hds]; simp)
      rw [hds] at hr
      simp only [decimalChars, hds, List.cons_append, readInt, (isDigit_ne c hc).1, if_false, hc,
        if_true]
      rw [List.cons_append] at hr
      rw [hr]
      simp [readNat]
  | negSucc n =>
    obtain ⟨hdig, hne⟩ := toDigits_digits (n + 1)
    have hr := readNat_toDigits (n + 1) (' ' :: tail)
    cases hds : Nat.toDigits 10 (n + 1) with
    | nil => exact absurd hds hne
    | cons c cs =>
      have hc : c.isDigit = true := hdig c (by rw [hds]; simp)
      rw [hds] at hr
      simp only [decimalChars, hds, List.cons_append, readInt, if_true, hc]
      rw [List.cons_append] at hr
      rw [hr]
      simp [readNat]
      rw [Int.negSucc_eq]
      omega

theorem newline_not_mem_decimalChars (i : Int) : '\n' ∉ decimalChars i := by
  intro h
  cases i with
  | ofNat n =>
    have := (isDigit_ne _ ((toDigits_digits n).1 _ h)).2
    exact this rfl
  | negSucc n =>
    simp only [decimalChars, List.mem_cons] at h
    rcases h with h | h
    · revert h; decide
    · exact (isDigit_ne _ ((toDigits_digits (n + 1)).1 _ h)).2 rfl

theorem dropLead_append (lead rest : List Char) : dropLead lead (lead ++ rest) = some rest := by
  induction lead with
  | nil => cases rest <;> rfl
  | cons p ps ih => simp [dropLead, ih]

/-! ## The greeting -/

theorem greeting_data (rank size : Int) :
    (greeting rank size).data =
      "Hello, I am rank ".data ++ (decimalChars rank ++
        (" of ".data ++ (decimalChars size ++ " total ranks\n".data))) := by
  simp [greeting, decimal, String.data_append]

theorem format_greeting (rank size : Int) :
    String.mk (formatChars "Hello, I am rank %d of %d total ranks\n".data [rank, size]) =
      greeting rank size := by
  apply String.ext
  rw [greeting_data]
  simp [formatChars]

theorem formatChars_no_args : ∀ cs : List Char, formatChars cs [] = cs
  | [] => rfl
  | [_] => rfl
  | c :: d :: rest => by
    have ih := formatChars_no_args (d :: rest)
    by_cases h : c = '%' ∧ d = 'd'
    · obtain ⟨rfl, rfl⟩ := h
      simp [formatChars, ih]
    · simp [formatChars, h, ih]

theorem format_plain (text : String) : String.mk (formatChars text.data []) = text := by
  rw [formatChars_no_args]

theorem recoverRank_greeting (rank size : Int) : recoverRank (greeting rank size) = some rank := by
  unfold recoverRank
  rw [greeting_data, dropLead_append]
  exact readInt_decimalChars rank _

theorem greeting_injective (r1 r2 size : Int) (h : greeting r1 size = greeting r2 size) :
    r1 = r2 := by
  have h1 := recoverRank_greeting r1 size
  rw [h, recoverRank_greeting] at h1
  exact (Option.some.inj h1).symm

theorem greeting_isOneLine (rank size : Int) : isOneLine (greeting rank size) := by
  unfold isOneLine
  rw [greeting_data]
  have ht : " total ranks\n".data.getLast? = some '\n' := by decide
  constructor
  · simp only [List.getLast?_append, ht, Option.or_some]
  · simp [List.count_append, List.count_eq_zero.2 (newline_not_mem_decimalChars rank),
      List.count_eq_zero.2 (newline_not_mem_decimalChars size)]

theorem decimal_signed (i : Int) :
    decimal i = if i < 0 then "-" ++ Nat.repr i.natAbs else Nat.repr i.natAbs := by
  cases i with
  | ofNat n =>
    have : ¬ (Int.ofNat n < 0) := by simp
    rw [if_neg this]
    rfl
  | negSucc n =>
    have : Int.negSucc n < 0 := Int.negSucc_lt_zero n
    rw [if_pos this]
    rfl

/-! ## Normal form of a run -/

theorem main_eq (argc : Int) (argv : List String) (rt : Runtime) :
    main argc argv rt =
      if rt.initRc ≠ MPI_SUCCESS then
        (EXIT_FAILURE, ⟨[Event.call Call.MPI_Init,
          Event.write Stream.stderr "MPI_Init() failed"]⟩)
      else if rt.sizeRc ≠ MPI_SUCCESS then
        (EXIT_FAILURE, ⟨[Event.call Call.MPI_Init, Event.call Call.MPI_Comm_size,
          Event.write Stream.stderr "MPI_Comm_size() failed",
          Event.call Call.MPI_Finalize]⟩)
      else if rt.rankRc ≠ MPI_SUCCESS then
        (EXIT_FAILURE, ⟨[Event.call Call.MPI_Init, Event.call Call.MPI_Comm_size,
          Event.call Call.MPI_Comm_rank,
          Event.write Stream.stderr "MPI_Comm_rank() failed",
          Event.call Call.MPI_Finalize]⟩)
      else if rt.nameRc ≠ MPI_SUCCESS then
        (EXIT_FAILURE, ⟨[Event.call Call.MPI_Init, Event.call Call.MPI_Comm_size,
          Event.call Call.MPI_Comm_rank, Event.call Call.MPI_Get_processor_name,
          Event.write Stream.stderr "MPI_Get_processor_name() failed",
          Event.call Call.MPI_Finalize]⟩)
      else
        (EXIT_SUCCESS, ⟨[Event.call Call.MPI_Init, Event.call Call.MPI_Comm_size,
          Event.call Call.MPI_Comm_rank, Event.call Call.MPI_Get_processor_name,
          Event.write Stream.stdout (greeting rt.rank rt.size),
          Event.call Call.MPI_Finalize]⟩) := by
  rw [← format_greeting]
  unfold main
  simp only [MPI_Init, MPI_Comm_size, MPI_Comm_rank, MPI_Get_processor_name, MPI_Finalize,
    exit_with_error, fprintf, World.log, World.start, formatChars_no_args,
    List.nil_append, List.cons_append]

theorem run_init_fail (argc : Int) (argv : List String) (rt : Runtime)
    (h0 : rt.initRc ≠ MPI_SUCCESS) :
    main argc argv rt =
      (EXIT_FAILURE, ⟨[Event.call Call.MPI_Init,
        Event.write Stream.stderr "MPI_Init() failed"]⟩) := by
  rw [main_eq, if_pos h0]

theorem run_size_fail (argc : Int) (argv : List String) (rt : Runtime)
    (h0 : rt.initRc = MPI_SUCCESS) (h1 : rt.sizeRc ≠ MPI_SUCCESS) :
    main argc argv rt =
      (EXIT_FAILURE, ⟨[Event.call Call.MPI_Init, Event.call Call.MPI_Comm_size,
        Event.write Stream.stderr "MPI_Comm_size() failed",
        Event.call Call.MPI_Finalize]⟩) := by
  rw [main_eq, if_neg (not_not.2 h0), if_pos h1]

theorem run_rank_fail (argc : Int) (argv : List String) (rt : Runtime)
    (h0 : rt.initRc = MPI_SUCCESS) (h1 : rt.sizeRc = MPI_SUCCESS)
    (h2 : rt.rankRc ≠ MPI_SUCCESS) :
    main argc argv rt =
      (EXIT_FAILURE, ⟨[Event.call Call.MPI_Init, Event.call Call.MPI_Comm_size,
        Event.call Call.MPI_Comm_rank,
        Event.write Stream.stderr "MPI_Comm_rank() failed",
        Event.call Call.MPI_Finalize]⟩) := by
  rw [main_eq, if_neg (not_not.2 h0), if_neg (not_not.2 h1), if_pos h2]

theorem run_name_fail (argc : Int) (argv : List String) (rt : Runtime)
    (h0 : rt.initRc = MPI_SUCCESS) (h1 : rt.sizeRc = MPI_SUCCESS)
    (h2 : rt.rankRc = MPI_SUCCESS) (h3 : rt.nameRc ≠ MPI_SUCCESS) :
    main argc argv rt =
      (EXIT_FAILURE, ⟨[Event.call Call.MPI_Init, Event.call Call.MPI_Comm_size,
        Event.call Call.MPI_Comm_rank, Event.call Call.MPI_Get_processor_name,
        Event.write Stream.stderr "MPI_Get_processor_name() failed",
        Event.call Call.MPI_Finalize]⟩) := by
  rw [main_eq, if_neg (not_not.2 h0), if_neg (not_not.2 h1), if_neg (not_not.2 h2), if_pos h3]

theorem run_ok (argc : Int) (argv : List String) (rt : Runtime)
    (h0 : rt.initRc = MPI_SUCCESS) (h1 : rt.sizeRc = MPI_SUCCESS)
    (h2 : rt.rankRc = MPI_SUCCESS) (h3 : rt.nameRc = MPI_SUCCESS) :
    main argc argv rt =
      (EXIT_SUCCESS, ⟨[Event.call Call.MPI_Init, Event.call Call.MPI_Comm_size,
        Event.call Call.MPI_Comm_rank, Event.call Call.MPI_Get_processor_name,
        Event.write Stream.stdout (greeting rt.rank rt.size),
        Event.call Call.MPI_Finalize]⟩) := by
  rw [main_eq, if_neg (not_not.2 h0), if_neg (not_not.2 h1), if_neg (not_not.2 h2),
    if_neg (not_not.2 h3)]

/-- The five ways a run can go, by the first step that fails. -/
theorem run_cases (rt : Runtime) :
    rt.initRc ≠ MPI_SUCCESS ∨
    (rt.initRc = MPI_SUCCESS ∧ rt.sizeRc ≠ MPI_SUCCESS) ∨
    (rt.initRc = MPI_SUCCESS ∧ rt.sizeRc = MPI_SUCCESS ∧ rt.rankRc ≠ MPI_SUCCESS) ∨
    (rt.initRc = MPI_SUCCESS ∧ rt.sizeRc = MPI_SUCCESS ∧ rt.rankRc = MPI_SUCCESS ∧
      rt.nameRc ≠ MPI_SUCCESS) ∨
    (rt.initRc = MPI_SUCCESS ∧ rt.sizeRc = MPI_SUCCESS ∧ rt.rankRc = MPI_SUCCESS ∧
      rt.nameRc = MPI_SUCCESS) := by
  by_cases h0 : rt.initRc = MPI_SUCCESS <;> by_cases h1 : rt.sizeRc = MPI_SUCCESS <;>
    by_cases h2 : rt.rankRc = MPI_SUCCESS <;> by_cases h3 : rt.nameRc = MPI_SUCCESS <;>
    simp [h0, h1, h2, h3]

/-! ## Exit status -/

/-- C1: the exit status of `main` is `0` exactly when `MPI_Init`, `MPI_Comm_size`,
`MPI_Comm_rank` and `MPI_Get_processor_name` all return `MPI_SUCCESS`, and `1` otherwise;
so it is always `0` or `1`, and replacing the value returned by `MPI_Finalize` by any
other value leaves it unchanged. -/
theorem exit_status_characterisation (argc : Int) (argv : List String) (rt : Runtime) :
    (exitStatus (main argc argv rt) = 0 ↔
      (rt.initRc = MPI_SUCCESS ∧ rt.sizeRc = MPI_SUCCESS ∧ rt.rankRc = MPI_SUCCESS ∧
        rt.nameRc = MPI_SUCCESS)) ∧
    exitStatus (main argc argv rt) =
      (if rt.initRc = MPI_SUCCESS ∧ rt.sizeRc = MPI_SUCCESS ∧ rt.rankRc = MPI_SUCCESS ∧
        rt.nameRc = MPI_SUCCESS then 0 else 1) ∧
    (exitStatus (main argc argv rt) = 0 ∨ exitStatus (main argc argv rt) = 1) ∧
    (∀ f : Int,
      exitStatus (main argc argv ⟨rt.initRc, rt.sizeRc, rt.size, rt.rankRc, rt.rank, rt.nameRc,
        rt.processor_name, rt.name_len, f⟩) = exitStatus (main argc argv rt)) := by
  have key : ∀ r : Runtime, exitStatus (main argc argv r) =
      (if r.initRc = MPI_SUCCESS ∧ r.sizeRc = MPI_SUCCESS ∧ r.rankRc = MPI_SUCCESS ∧
        r.nameRc = MPI_SUCCESS then 0 else 1) := by
    intro r
    rcases run_cases r with h | ⟨h0, h⟩ | ⟨h0, h1, h⟩ | ⟨h0, h1, h2, h⟩ | ⟨h0, h1, h2, h⟩
    · rw [run_init_fail argc argv r h]; simp [exitStatus, h, EXIT_FAILURE]
    · rw [run_size_fail argc argv r h0 h]; simp [exitStatus, h, EXIT_FAILURE]
    · rw [run_rank_fail argc argv r h0 h1 h]; simp [exitStatus, h, EXIT_FAILURE]
    · rw [run_name_fail argc argv r h0 h1 h2 h]; simp [exitStatus, h, EXIT_FAILURE]
    · rw [run_ok argc argv r h0 h1 h2 h]; simp [exitStatus, h0, h1, h2, h, EXIT_SUCCESS]
  refine ⟨?_, key rt, ?_, ?_⟩
  · rw [key rt]; split_ifs with h <;> simp [h]
  · rw [key rt]; split_ifs <;> simp
  · intro f; rw [key, key rt]

/-! ## Failure paths -/

/-- C4: when `MPI_Init` returns a non-success code, `main` writes the diagnostic
`MPI_Init() failed` (a non-empty text) to standard error, writes nothing to standard
output, exits with a non-zero status (namely `1`), and its runtime calls are exactly
`[MPI_Init]`: no query and no `MPI_Finalize`. -/
theorem init_failure_run (argc : Int) (argv : List String) (rt : Runtime)
    (h0 : rt.initRc ≠ MPI_SUCCESS) :
    stderrText (main argc argv rt) = "MPI_Init() failed" ∧
    stderrText (main argc argv rt) ≠ "" ∧
    writesTo Stream.stdout (trace (main argc argv rt)) = [] ∧
    stdoutText (main argc argv rt) = "" ∧
    exitStatus (main argc argv rt) ≠ 0 ∧
    exitStatus (main argc argv rt) = 1 ∧
    calls (main argc argv rt) = [Call.MPI_Init] ∧
    Call.MPI_Finalize ∉ calls (main argc argv rt) := by
  rw [run_init_fail argc argv rt h0]
  decide

/-- Witness for C4: a run whose `MPI_Init` returns `1`. -/
theorem init_failure_run_witness :
    (sampleRuntime 1 0 0 0).initRc ≠ MPI_SUCCESS ∧
    stderrText (main 1 ["mpitest"] (sampleRuntime 1 0 0 0)) = "MPI_Init() failed" ∧
    stdoutText (main 1 ["mpitest"] (sampleRuntime 1 0 0 0)) = "" ∧
    exitStatus (main 1 ["mpitest"] (sampleRuntime 1 0 0 0)) = 1 ∧
    calls (main 1 ["mpitest"] (sampleRuntime 1 0 0 0)) = [Call.MPI_Init] :=
  have h := init_failure_run 1 ["mpitest"] (sampleRuntime 1 0 0 0) (by decide)
  ⟨by decide, h.1, h.2.2.2.1, h.2.2.2.2.2.1, h.2.2.2.2.2.2.1⟩

/-- C3: when `MPI_Init` succeeds and one of the queries `MPI_Comm_size`, `MPI_Comm_rank`,
`MPI_Get_processor_name` fails, the runtime calls of `main` are the queries up to and
including the first failing one followed by `MPI_Finalize`; so `MPI_Finalize` occurs
exactly once, after the failing query, it is the last runtime call (and the last action
of the run), no later query is made, and the exit status is non-zero. -/
theorem query_failure_run (argc : Int) (argv : List String) (rt : Runtime)
    (h0 : rt.initRc = MPI_SUCCESS)
    (hq : rt.sizeRc ≠ MPI_SUCCESS ∨ rt.rankRc ≠ MPI_SUCCESS ∨ rt.nameRc ≠ MPI_SUCCESS) :
    (calls (main argc argv rt)).count Call.MPI_Finalize = 1 ∧
    (calls (main argc argv rt)).getLast? = some Call.MPI_Finalize ∧
    (trace (main argc argv rt)).getLast? = some (Event.call Call.MPI_Finalize) ∧
    exitStatus (main argc argv rt) ≠ 0 ∧
    (rt.sizeRc ≠ MPI_SUCCESS →
      calls (main argc argv rt) =
        [Call.MPI_Init, Call.MPI_Comm_size, Call.MPI_Finalize]) ∧
    (rt.sizeRc = MPI_SUCCESS → rt.rankRc ≠ MPI_SUCCESS →
      calls (main argc argv rt) =
        [Call.MPI_Init, Call.MPI_Comm_size, Call.MPI_Comm_rank, Call.MPI_Finalize]) ∧
    (rt.sizeRc = MPI_SUCCESS → rt.rankRc = MPI_SUCCESS → rt.nameRc ≠ MPI_SUCCESS →
      calls (main argc argv rt) =
        [Call.MPI_Init, Call.MPI_Comm_size, Call.MPI_Comm_rank,
          Call.MPI_Get_processor_name, Call.MPI_Finalize]) := by
  rcases run_cases rt with h | ⟨_, h⟩ | ⟨_, h1, h⟩ | ⟨_, h1, h2, h⟩ | ⟨_, h1, h2, h⟩
  · exact absurd h0 h
  · rw [run_size_fail argc argv rt h0 h]
    refine ⟨by decide, by decide, by decide, by decide, fun _ => by decide,
      fun h1 => absurd h1 h, fun h1 => absurd h1 h⟩
  · rw [run_rank_fail argc argv rt h0 h1 h]
    refine ⟨by decide, by decide, by decide, by decide, fun h => absurd h1 h,
      fun _ _ => by decide, fun _ h2 => absurd h2 h⟩
  · rw [run_name_fail argc argv rt h0 h1 h2 h]
    refine ⟨by decide, by decide, by decide, by decide, fun h => absurd h1 h,
      fun _ h => absurd h2 h, fun _ _ _ => by decide⟩
  · rcases hq with hq | hq | hq
    · exact absurd h1 hq
    · exact absurd h2 hq
    · exact absurd h hq

/-- Witness for C3: a run whose rank query returns `7` after a successful join and size
query. -/
theorem query_failure_run_witness :
    (sampleRuntime 0 0 7 0).initRc = MPI_SUCCESS ∧
    (sampleRuntime 0 0 7 0).rankRc ≠ MPI_SUCCESS ∧
    (calls (main 1 ["mpitest"] (sampleRuntime 0 0 7 0))).count Call.MPI_Finalize = 1 ∧
    (calls (main 1 ["mpitest"] (sampleRuntime 0 0 7 0))).getLast? = some Call.MPI_Finalize ∧
    exitStatus (main 1 ["mpitest"] (sampleRuntime 0 0 7 0)) ≠ 0 ∧
    calls (main 1 ["mpitest"] (sampleRuntime 0 0 7 0)) =
      [Call.MPI_Init, Call.MPI_Comm_size, Call.MPI_Comm_rank, Call.MPI_Finalize] :=
  have h := query_failure_run 1 ["mpitest"] (sampleRuntime 0 0 7 0) (by decide)
    (Or.inr (Or.inl (by decide)))
  ⟨by decide, by decide, h.1, h.2.1, h.2.2.2.1, h.2.2.2.2.2.1 (by decide) (by decide)⟩

/-! ## Order of the actions -/

/-- C9: in every run of `main` the actions are ordered initialize, queries, print,
finalize.  `MPI_Init` is the first action; if it fails there is no other runtime call and
no greeting; leaving `MPI_Finalize` aside, the runtime calls are an initial segment of
`MPI_Init, MPI_Comm_size, MPI_Comm_rank, MPI_Get_processor_name`, and each query is made
exactly when every earlier step succeeded; a greeting is written exactly when all four
steps succeeded, and then the trace is exactly `MPI_Init, MPI_Comm_size, MPI_Comm_rank,
MPI_Get_processor_name, greeting, MPI_Finalize`; `MPI_Finalize` is called at most once,
exactly when `MPI_Init` succeeded, and then it is the last action of the run. -/
theorem trace_order (argc : Int) (argv : List String) (rt : Runtime) :
    (trace (main argc argv rt)).head? = some (Event.call Call.MPI_Init) ∧
    (calls (main argc argv rt)).head? = some Call.MPI_Init ∧
    (rt.initRc ≠ MPI_SUCCESS →
      calls (main argc argv rt) = [Call.MPI_Init] ∧
      writesTo Stream.stdout (trace (main argc argv rt)) = []) ∧
    ((calls (main argc argv rt)).filter (fun c => c ≠ Call.MPI_Finalize) <+:
      [Call.MPI_Init, Call.MPI_Comm_size, Call.MPI_Comm_rank, Call.MPI_Get_processor_name]) ∧
    (Call.MPI_Comm_size ∈ calls (main argc argv rt) ↔ rt.initRc = MPI_SUCCESS) ∧
    (Call.MPI_Comm_rank ∈ calls (main argc argv rt) ↔
      rt.initRc = MPI_SUCCESS ∧ rt.sizeRc = MPI_SUCCESS) ∧
    (Call.MPI_Get_processor_name ∈ calls (main argc argv rt) ↔
      rt.initRc = MPI_SUCCESS ∧ rt.sizeRc = MPI_SUCCESS ∧ rt.rankRc = MPI_SUCCESS) ∧
    (writesTo Stream.stdout (trace (main argc argv rt)) ≠ [] ↔
      rt.initRc = MPI_SUCCESS ∧ rt.sizeRc = MPI_SUCCESS ∧ rt.rankRc = MPI_SUCCESS ∧
        rt.nameRc = MPI_SUCCESS) ∧
    (rt.initRc = MPI_SUCCESS ∧ rt.sizeRc = MPI_SUCCESS ∧ rt.rankRc = MPI_SUCCESS ∧
        rt.nameRc = MPI_SUCCESS →
      trace (main argc argv rt) =
        [Event.call Call.MPI_Init, Event.call Call.MPI_Comm_size,
          Event.call Call.MPI_Comm_rank, Event.call Call.MPI_Get_processor_name,
          Event.write Stream.stdout (greeting rt.rank rt.size),
          Event.call Call.MPI_Finalize]) ∧
    (calls (main argc argv rt)).count Call.MPI_Finalize ≤ 1 ∧
    (Call.MPI_Finalize ∈ calls (main argc argv rt) ↔ rt.initRc = MPI_SUCCESS) ∧
    (Call.MPI_Finalize ∈ calls (main argc argv rt) →
      (trace (main argc argv rt)).getLast? = some (Event.call Call.MPI_Finalize)) := by
  rcases run_cases rt with h | ⟨h0, h⟩ | ⟨h0, h1, h⟩ | ⟨h0, h1, h2, h⟩ | ⟨h0, h1, h2, h⟩
  · rw [run_init_fail argc argv rt h]
    refine ⟨by decide, by decide, fun _ => by decide, by decide, ?_, ?_, ?_, ?_, ?_,
      by decide, ?_, by decide⟩ <;> simp [h, calls, trace, callsOf, writesTo]
  · rw [run_size_fail argc argv rt h0 h]
    refine ⟨by decide, by decide, fun h => absurd h0 h, by decide, ?_, ?_, ?_, ?_, ?_,
      by decide, ?_, by decide⟩ <;> simp [h0, h, calls, trace, callsOf, writesTo]
  · rw [run_rank_fail argc argv rt h0 h1 h]
    refine ⟨by decide, by decide, fun h => absurd h0 h, by decide, ?_, ?_, ?_, ?_, ?_,
      by decide, ?_, by decide⟩ <;> simp [h0, h1, h, calls, trace, callsOf, writesTo]
  · rw [run_name_fail argc argv rt h0 h1 h2 h]
    refine ⟨by decide, by decide, fun h => absurd h0 h, by decide, ?_, ?_, ?_, ?_, ?_,
      by decide, ?_, by decide⟩ <;> simp [h0, h1, h2, h, calls, trace, callsOf, writesTo]
  · rw [run_ok argc argv rt h0 h1 h2 h]
    refine ⟨rfl, rfl, fun h => absurd h0 h, ?_, ?_, ?_, ?_, ?_, ?_, ?_, ?_, ?_⟩ <;>
      simp [h0, h1, h2, h, calls, trace, callsOf, writesTo]

/-! ## The greeting on standard output -/

/-- C2: when `MPI_Init` and the three queries succeed, `main` writes to standard output
exactly the text `Hello, I am rank <rank> of <size> total ranks` followed by a newline,
with rank and size in decimal, in a single write and nothing else; for rank `0` and
size `1` that text is `Hello, I am rank 0 of 1 total ranks` plus newline, and the exit
status is `0`. -/
theorem greeting_output (argc : Int) (argv : List String) (rt : Runtime)
    (h0 : rt.initRc = MPI_SUCCESS) (h1 : rt.sizeRc = MPI_SUCCESS)
    (h2 : rt.rankRc = MPI_SUCCESS) (h3 : rt.nameRc = MPI_SUCCESS) :
    stdoutText (main argc argv rt) =
      "Hello, I am rank " ++ decimal rt.rank ++ " of " ++ decimal rt.size ++
        " total ranks\n" ∧
    writesTo Stream.stdout (trace (main argc argv rt)) =
      ["Hello, I am rank " ++ decimal rt.rank ++ " of " ++ decimal rt.size ++
        " total ranks\n"] ∧
    exitStatus (main argc argv rt) = 0 ∧
    (rt.rank = 0 → rt.size = 1 →
      stdoutText (main argc argv rt) = "Hello, I am rank 0 of 1 total ranks\n") := by
  have hw : writesTo Stream.stdout (trace (main argc argv rt)) = [greeting rt.rank rt.size] := by
    rw [run_ok argc argv rt h0 h1 h2 h3]
    simp [trace, writesTo]
  have ht : stdoutText (main argc argv rt) = greeting rt.rank rt.size := by
    simp [stdoutText, hw]
  refine ⟨ht, hw, ?_, ?_⟩
  · rw [run_ok argc argv rt h0 h1 h2 h3]; rfl
  · intro hr hs
    rw [ht, hr, hs]
    decide

/-- Witness for C2: the single-participant run, rank `0` of `1`. -/
theorem greeting_output_witness :
    (okRuntime 0 1).initRc = MPI_SUCCESS ∧ (okRuntime 0 1).sizeRc = MPI_SUCCESS ∧
    (okRuntime 0 1).rankRc = MPI_SUCCESS ∧ (okRuntime 0 1).nameRc = MPI_SUCCESS ∧
    stdoutText (main 1 ["mpitest"] (okRuntime 0 1)) = "Hello, I am rank 0 of 1 total ranks\n" ∧
    exitStatus (main 1 ["mpitest"] (okRuntime 0 1)) = 0 :=
  have h := greeting_output 1 ["mpitest"] (okRuntime 0 1) rfl rfl rfl rfl
  ⟨rfl, rfl, rfl, rfl, h.2.2.2 rfl rfl, h.2.2.1⟩

theorem stdout_ok (argc : Int) (argv : List String) (rt : Runtime)
    (h0 : rt.initRc = MPI_SUCCESS) (h1 : rt.sizeRc = MPI_SUCCESS)
    (h2 : rt.rankRc = MPI_SUCCESS) (h3 : rt.nameRc = MPI_SUCCESS) :
    stdoutText (main argc argv rt) = greeting rt.rank rt.size ∧
    exitStatus (main argc argv rt) = 0 := by
  rw [run_ok argc argv rt h0 h1 h2 h3]
  constructor
  · simp [stdoutText, trace, writesTo]
  · rfl

/-- C10: `main` does not validate what the runtime reports: whenever the four checked
steps succeed, whatever integers the runtime stores as rank and size (no relation between
them is assumed, nor any sign), the run prints the greeting with these two values in
signed decimal (a `-` followed by the digits of the magnitude when negative) and exits
with status `0`. -/
theorem no_validation (argc : Int) (argv : List String) (rt : Runtime)
    (h0 : rt.initRc = MPI_SUCCESS) (h1 : rt.sizeRc = MPI_SUCCESS)
    (h2 : rt.rankRc = MPI_SUCCESS) (h3 : rt.nameRc = MPI_SUCCESS) :
    stdoutText (main argc argv rt) = greeting rt.rank rt.size ∧
    exitStatus (main argc argv rt) = 0 ∧
    decimal rt.rank =
      (if rt.rank < 0 then "-" ++ Nat.repr rt.rank.natAbs else Nat.repr rt.rank.natAbs) ∧
    decimal rt.size =
      (if rt.size < 0 then "-" ++ Nat.repr rt.size.natAbs else Nat.repr rt.size.natAbs) :=
  ⟨(stdout_ok argc argv rt h0 h1 h2 h3).1, (stdout_ok argc argv rt h0 h1 h2 h3).2,
    decimal_signed rt.rank, decimal_signed rt.size⟩

/-- Witness for C10: a negative rank with size `0`, and a rank above the size. -/
theorem no_validation_witness :
    (okRuntime (-1) 0).initRc = MPI_SUCCESS ∧ (okRuntime (-1) 0).sizeRc = MPI_SUCCESS ∧
    (okRuntime (-1) 0).rankRc = MPI_SUCCESS ∧ (okRuntime (-1) 0).nameRc = MPI_SUCCESS ∧
    stdoutText (main 1 ["mpitest"] (okRuntime (-1) 0)) =
      "Hello, I am rank -1 of 0 total ranks\n" ∧
    exitStatus (main 1 ["mpitest"] (okRuntime (-1) 0)) = 0 ∧
    stdoutText (main 1 ["mpitest"] (okRuntime 5 2)) = "Hello, I am rank 5 of 2 total ranks\n" ∧
    exitStatus (main 1 ["mpitest"] (okRuntime 5 2)) = 0 :=
  have h := no_validation 1 ["mpitest"] (okRuntime (-1) 0) rfl rfl rfl rfl
  have k := no_validation 1 ["mpitest"] (okRuntime 5 2) rfl rfl rfl rfl
  ⟨rfl, rfl, rfl, rfl, h.1.trans (by decide), h.2.1, k.1.trans (by decide), k.2.1⟩

/-- C8: the greeting depends on rank and size only: two successful runs that are told
the same rank and the same size write the same text to standard output and exit with
the same status, whatever the two command lines, processor names, name lengths (and
`MPI_Finalize` return codes) are. -/
theorem greeting_independent (argc1 argc2 : Int) (argv1 argv2 : List String)
    (rt1 rt2 : Runtime) (ok1 : allSucceed rt1) (ok2 : allSucceed rt2)
    (hrank : rt1.rank = rt2.rank) (hsize : rt1.size = rt2.size) :
    stdoutText (main argc1 argv1 rt1) = stdoutText (main argc2 argv2 rt2) ∧
    exitStatus (main argc1 argv1 rt1) = exitStatus (main argc2 argv2 rt2) := by
  obtain ⟨a0, a1, a2, a3⟩ := ok1
  obtain ⟨b0, b1, b2, b3⟩ := ok2
  have e1 := stdout_ok argc1 argv1 rt1 a0 a1 a2 a3
  have e2 := stdout_ok argc2 argv2 rt2 b0 b1 b2 b3
  rw [e1.1, e1.2, e2.1, e2.2, hrank, hsize]
  exact ⟨rfl, rfl⟩

/-- Witness for C8: two successful runs, rank `2` of `4`, on differently named hosts and
with different command lines. -/
theorem greeting_independent_witness :
    allSucceed ⟨0, 0, 4, 0, 2, 0, "node0", 5, 0⟩ ∧
    allSucceed ⟨0, 0, 4, 0, 2, 0, "another-host.example", 20, 3⟩ ∧
    stdoutText (main 1 ["mpitest"] ⟨0, 0, 4, 0, 2, 0, "node0", 5, 0⟩) =
      stdoutText (main 3 ["mpitest", "--verbose", "x"]
        ⟨0, 0, 4, 0, 2, 0, "another-host.example", 20, 3⟩) ∧
    exitStatus (main 1 ["mpitest"] ⟨0, 0, 4, 0, 2, 0, "node0", 5, 0⟩) =
      exitStatus (main 3 ["mpitest", "--verbose", "x"]
        ⟨0, 0, 4, 0, 2, 0, "another-host.example", 20, 3⟩) :=
  have h := greeting_independent 1 3 ["mpitest"] ["mpitest", "--verbose", "x"]
    ⟨0, 0, 4, 0, 2, 0, "node0", 5, 0⟩ ⟨0, 0, 4, 0, 2, 0, "another-host.example", 20, 3⟩
    (by decide) (by decide) rfl rfl
  ⟨by decide, by decide, h.1, h.2⟩

/-! ## Shape of the output -/

/-- C5, as stated, fails: in the run whose size query returns `3` the exit status is
non-zero and standard error receives `MPI_Comm_size() failed`, a text without any
newline, so it is not one newline-terminated line, and neither alternative of the claim
holds. -/
theorem one_line_on_failure_counterexample :
    exitStatus (main 1 ["mpitest"] (sampleRuntime 0 3 0 0)) ≠ 0 ∧
    stderrText (main 1 ["mpitest"] (sampleRuntime 0 3 0 0)) = "MPI_Comm_size() failed" ∧
    ¬ isOneLine (stderrText (main 1 ["mpitest"] (sampleRuntime 0 3 0 0))) ∧
    ¬ ((exitStatus (main 1 ["mpitest"] (sampleRuntime 0 3 0 0)) = 0 ∧
          isOneLine (stdoutText (main 1 ["mpitest"] (sampleRuntime 0 3 0 0))) ∧
          stderrText (main 1 ["mpitest"] (sampleRuntime 0 3 0 0)) = "") ∨
        (exitStatus (main 1 ["mpitest"] (sampleRuntime 0 3 0 0)) ≠ 0 ∧
          isOneLine (stderrText (main 1 ["mpitest"] (sampleRuntime 0 3 0 0))) ∧
          stdoutText (main 1 ["mpitest"] (sampleRuntime 0 3 0 0)) = "")) := by
  decide

/-- C5, amended: in every run of `main` exactly one of the following holds.  Success
(exit status `0`): standard output receives, in one write, exactly one newline-terminated
line and standard error receives nothing.  Failure (exit status non-zero): standard error
receives, in one write, a non-empty diagnostic text that contains no newline character,
and standard output receives nothing. -/
theorem output_shape (argc : Int) (argv : List String) (rt : Runtime) :
    ((exitStatus (main argc argv rt) = 0 ∧
        isOneLine (stdoutText (main argc argv rt)) ∧
        (writesTo Stream.stdout (trace (main argc argv rt))).length = 1 ∧
        writesTo Stream.stderr (trace (main argc argv rt)) = [] ∧
        stderrText (main argc argv rt) = "") ∨
      (exitStatus (main argc argv rt) ≠ 0 ∧
        (writesTo Stream.stderr (trace (main argc argv rt))).length = 1 ∧
        stderrText (main argc argv rt) ≠ "" ∧
        '\n' ∉ (stderrText (main argc argv rt)).data ∧
        writesTo Stream.stdout (trace (main argc argv rt)) = [] ∧
        stdoutText (main argc argv rt) = "")) ∧
    ¬ ((exitStatus (main argc argv rt) = 0 ∧
        isOneLine (stdoutText (main argc argv rt)) ∧
        (writesTo Stream.stdout (trace (main argc argv rt))).length = 1 ∧
        writesTo Stream.stderr (trace (main argc argv rt)) = [] ∧
        stderrText (main argc argv rt) = "") ∧
      (exitStatus (main argc argv rt) ≠ 0 ∧
        (writesTo Stream.stderr (trace (main argc argv rt))).length = 1 ∧
        stderrText (main argc argv rt) ≠ "" ∧
        '\n' ∉ (stderrText (main argc argv rt)).data ∧
        writesTo Stream.stdout (trace (main argc argv rt)) = [] ∧
        stdoutText (main argc argv rt) = "")) := by
  refine ⟨?_, fun h => h.2.1 h.1.1⟩
  rcases run_cases rt with h | ⟨h0, h⟩ | ⟨h0, h1, h⟩ | ⟨h0, h1, h2, h⟩ | ⟨h0, h1, h2, h⟩
  · rw [run_init_fail argc argv rt h]; exact Or.inr (by decide)
  · rw [run_size_fail argc argv rt h0 h]; exact Or.inr (by decide)
  · rw [run_rank_fail argc argv rt h0 h1 h]; exact Or.inr (by decide)
  · rw [run_name_fail argc argv rt h0 h1 h2 h]; exact Or.inr (by decide)
  · left
    have hl := greeting_isOneLine rt.rank rt.size
    rw [← (stdout_ok argc argv rt h0 h1 h2 h).1] at hl
    refine ⟨(stdout_ok argc argv rt h0 h1 h2 h).2, hl, ?_, ?_, ?_⟩ <;>
      (rw [run_ok argc argv rt h0 h1 h2 h]; simp [trace, writesTo, stderrText])

/-! ## Diagnostics -/

theorem stderr_by_first_failure (argc : Int) (argv : List String) (rt : Runtime) :
    (firstFailure rt = some Call.MPI_Init ∧
      writesTo Stream.stderr (trace (main argc argv rt)) = ["MPI_Init() failed"]) ∨
    (firstFailure rt = some Call.MPI_Comm_size ∧
      writesTo Stream.stderr (trace (main argc argv rt)) = ["MPI_Comm_size() failed"]) ∨
    (firstFailure rt = some Call.MPI_Comm_rank ∧
      writesTo Stream.stderr (trace (main argc argv rt)) = ["MPI_Comm_rank() failed"]) ∨
    (firstFailure rt = some Call.MPI_Get_processor_name ∧
      writesTo Stream.stderr (trace (main argc argv rt)) =
        ["MPI_Get_processor_name() failed"]) ∨
    (firstFailure rt = none ∧ exitStatus (main argc argv rt) = 0) := by
  rcases run_cases rt with h | ⟨h0, h⟩ | ⟨h0, h1, h⟩ | ⟨h0, h1, h2, h⟩ | ⟨h0, h1, h2, h⟩
  · rw [run_init_fail argc argv rt h]
    exact Or.inl ⟨by simp [firstFailure, h], by decide⟩
  · rw [run_size_fail argc argv rt h0 h]
    exact Or.inr (Or.inl ⟨by simp [firstFailure, h0, h], by decide⟩)
  · rw [run_rank_fail argc argv rt h0 h1 h]
    exact Or.inr (Or.inr (Or.inl ⟨by simp [firstFailure, h0, h1, h], by decide⟩))
  · rw [run_name_fail argc argv rt h0 h1 h2 h]
    exact Or.inr (Or.inr (Or.inr (Or.inl ⟨by simp [firstFailure, h0, h1, h2, h], by decide⟩)))
  · rw [run_ok argc argv rt h0 h1 h2 h]
    exact Or.inr (Or.inr (Or.inr (Or.inr ⟨by simp [firstFailure, h0, h1, h2, h], rfl⟩)))

/-- C6: in every failing run standard error receives a single diagnostic, and it names
the first step that failed: it mentions `MPI_Init` exactly when the join failed,
`MPI_Comm_size` exactly when the size query was the first failure, `MPI_Comm_rank`
exactly when the rank query was, `MPI_Get_processor_name` exactly when the name query
was.  The text is one of four pairwise distinct diagnostics, and the first failing step
is recoverable from it: two failing runs with the same standard-error text failed first
at the same step. -/
theorem diagnostic_names_first_failure (argc : Int) (argv : List String) (rt : Runtime)
    (hfail : exitStatus (main argc argv rt) ≠ 0) :
    (∃ d, writesTo Stream.stderr (trace (main argc argv rt)) = [d] ∧
      stderrText (main argc argv rt) = d) ∧
    (mentions (stderrText (main argc argv rt)) "MPI_Init" = true ↔
      rt.initRc ≠ MPI_SUCCESS) ∧
    (mentions (stderrText (main argc argv rt)) "MPI_Comm_size" = true ↔
      rt.initRc = MPI_SUCCESS ∧ rt.sizeRc ≠ MPI_SUCCESS) ∧
    (mentions (stderrText (main argc argv rt)) "MPI_Comm_rank" = true ↔
      rt.initRc = MPI_SUCCESS ∧ rt.sizeRc = MPI_SUCCESS ∧ rt.rankRc ≠ MPI_SUCCESS) ∧
    (mentions (stderrText (main argc argv rt)) "MPI_Get_processor_name" = true ↔
      rt.initRc = MPI_SUCCESS ∧ rt.sizeRc = MPI_SUCCESS ∧ rt.rankRc = MPI_SUCCESS ∧
        rt.nameRc ≠ MPI_SUCCESS) ∧
    stderrText (main argc argv rt) ∈
      ["MPI_Init() failed", "MPI_Comm_size() failed", "MPI_Comm_rank() failed",
        "MPI_Get_processor_name() failed"] ∧
    ["MPI_Init() failed", "MPI_Comm_size() failed", "MPI_Comm_rank() failed",
        "MPI_Get_processor_name() failed"].Nodup ∧
    (∀ (argc2 : Int) (argv2 : List String) (rt2 : Runtime),
      exitStatus (main argc2 argv2 rt2) ≠ 0 →
      stderrText (main argc2 argv2 rt2) = stderrText (main argc argv rt) →
      firstFailure rt2 = firstFailure rt) := by
  have hrec : ∀ (argc2 : Int) (argv2 : List String) (rt2 : Runtime),
      exitStatus (main argc2 argv2 rt2) ≠ 0 →
      stderrText (main argc2 argv2 rt2) = stderrText (main argc argv rt) →
      firstFailure rt2 = firstFailure rt := by
    intro argc2 argv2 rt2 hfail2 heq
    simp only [stderrText] at heq
    rcases stderr_by_first_failure argc argv rt with
      ⟨f1, w1⟩ | ⟨f1, w1⟩ | ⟨f1, w1⟩ | ⟨f1, w1⟩ | ⟨f1, w1⟩ <;>
    rcases stderr_by_first_failure argc2 argv2 rt2 with
      ⟨f2, w2⟩ | ⟨f2, w2⟩ | ⟨f2, w2⟩ | ⟨f2, w2⟩ | ⟨f2, w2⟩ <;>
    first
      | exact absurd w1 hfail
      | exact absurd w2 hfail2
      | (rw [f1, f2]; done)
      | (rw [w1, w2] at heq; exact absurd heq (by decide))
  rcases run_cases rt with h | ⟨h0, h⟩ | ⟨h0, h1, h⟩ | ⟨h0, h1, h2, h⟩ | ⟨h0, h1, h2, h⟩
  · refine ⟨?_, ?_, ?_, ?_, ?_, ?_, by decide, hrec⟩ <;> rw [run_init_fail argc argv rt h]
    · exact ⟨_, rfl, by decide⟩
    · exact iff_of_true (by decide) h
    · exact iff_of_false (by decide) (fun k => h k.1)
    · exact iff_of_false (by decide) (fun k => h k.1)
    · exact iff_of_false (by decide) (fun k => h k.1)
    · decide
  · refine ⟨?_, ?_, ?_, ?_, ?_, ?_, by decide, hrec⟩ <;> rw [run_size_fail argc argv rt h0 h]
    · exact ⟨_, rfl, by decide⟩
    · exact iff_of_false (by decide) (fun k => k h0)
    · exact iff_of_true (by decide) ⟨h0, h⟩
    · exact iff_of_false (by decide) (fun k => h k.2.1)
    · exact iff_of_false (by decide) (fun k => h k.2.1)
    · decide
  · refine ⟨?_, ?_, ?_, ?_, ?_, ?_, by decide, hrec⟩ <;>
      rw [run_rank_fail argc argv rt h0 h1 h]
    · exact ⟨_, rfl, by decide⟩
    · exact iff_of_false (by decide) (fun k => k h0)
    · exact iff_of_false (by decide) (fun k => k.2 h1)
    · exact iff_of_true (by decide) ⟨h0, h1, h⟩
    · exact iff_of_false (by decide) (fun k => h k.2.2.1)
    · decide
  · refine ⟨?_, ?_, ?_, ?_, ?_, ?_, by decide, hrec⟩ <;>
      rw [run_name_fail argc argv rt h0 h1 h2 h]
    · exact ⟨_, rfl, by decide⟩
    · exact iff_of_false (by decide) (fun k => k h0)
    · exact iff_of_false (by decide) (fun k => k.2 h1)
    · exact iff_of_false (by decide) (fun k => k.2.2 h2)
    · exact iff_of_true (by decide) ⟨h0, h1, h2, h⟩
    · decide
  · exact absurd (stdout_ok argc argv rt h0 h1 h2 h).2 hfail

/-- Witness for C6: a run whose name query returns `9`. -/
theorem diagnostic_names_first_failure_witness :
    exitStatus (main 1 ["mpitest"] (sampleRuntime 0 0 0 9)) ≠ 0 ∧
    stderrText (main 1 ["mpitest"] (sampleRuntime 0 0 0 9)) =
      "MPI_Get_processor_name() failed" ∧
    (mentions (stderrText (main 1 ["mpitest"] (sampleRuntime 0 0 0 9)))
        "MPI_Get_processor_name" = true ↔
      (sampleRuntime 0 0 0 9).initRc = MPI_SUCCESS ∧
        (sampleRuntime 0 0 0 9).sizeRc = MPI_SUCCESS ∧
        (sampleRuntime 0 0 0 9).rankRc = MPI_SUCCESS ∧
        (sampleRuntime 0 0 0 9).nameRc ≠ MPI_SUCCESS) ∧
    (mentions (stderrText (main 1 ["mpitest"] (sampleRuntime 0 0 0 9))) "MPI_Init" = true ↔
      (sampleRuntime 0 0 0 9).initRc ≠ MPI_SUCCESS) :=
  have h := diagnostic_names_first_failure 1 ["mpitest"] (sampleRuntime 0 0 0 9) (by decide)
  ⟨by decide, by decide, h.2.2.2.2.1, h.2.1⟩

/-! ## Cooperating instances -/

/-- C7: run `N` instances of `main` in which every checked runtime call succeeds, every
instance is told size `N` and instance `r` is told rank `r`, and collect the
standard-output texts in any order.  There are exactly `N` of them, pairwise distinct,
each is one newline-terminated line, the rank recovered from each lies in `[0, N)`, the
recovered ranks are exactly `0, ..., N-1` (one each), and for a fixed size the greeting
determines the rank. -/
theorem aggregate_greetings (N : Nat) (argc : Int) (argv : List String) (rt : Nat → Runtime)
    (hok : ∀ r : Nat, r < N → allSucceed (rt r) ∧ (rt r).size = N ∧ (rt r).rank = r)
    (outs : List String) (hperm : outs.Perm (aggregateStdout N argc argv rt)) :
    outs.length = N ∧
    outs.Nodup ∧
    (∀ l ∈ outs, isOneLine l ∧ ∃ r : Int, recoverRank l = some r ∧ 0 ≤ r ∧ r < N) ∧
    (outs.map recoverRank).Perm ((List.range N).map (fun r : Nat => some (r : Int))) ∧
    (∀ r1 r2 size : Int, greeting r1 size = greeting r2 size → r1 = r2) := by
  have hagg : aggregateStdout N argc argv rt =
      (List.range N).map (fun r : Nat => greeting (r : Int) (N : Int)) := by
    unfold aggregateStdout
    apply List.map_congr_left
    intro r hr
    obtain ⟨⟨a0, a1, a2, a3⟩, hs, hk⟩ := hok r (List.mem_range.1 hr)
    rw [(stdout_ok argc argv (rt r) a0 a1 a2 a3).1, hs, hk]
  rw [hagg] at hperm
  have hinj : Function.Injective (fun r : Nat => greeting (r : Int) (N : Int)) := by
    intro r1 r2 h
    exact Int.ofNat.inj (greeting_injective _ _ _ h)
  refine ⟨?_, ?_, ?_, ?_, greeting_injective⟩
  · rw [hperm.length_eq]; simp
  · exact hperm.nodup_iff.2 (List.Nodup.map hinj (List.nodup_range N))
  · intro l hl
    obtain ⟨r, hr, rfl⟩ := List.mem_map.1 (hperm.mem_iff.1 hl)
    refine ⟨greeting_isOneLine _ _, (r : Int), recoverRank_greeting _ _, ?_, ?_⟩
    · exact Int.ofNat_nonneg r
    · exact Int.ofNat_lt.2 (List.mem_range.1 hr)
  · have := hperm.map recoverRank
    rw [List.map_map] at this
    have hfun : (recoverRank ∘ fun r : Nat => greeting (r : Int) (N : Int)) =
        fun r : Nat => some (r : Int) := by
      funext r
      exact recoverRank_greeting _ _
    rw [hfun] at this
    exact this

/-- Witness for C7: three instances, their lines collected out of rank order. -/
theorem aggregate_greetings_witness :
    (∀ r : Nat, r < 3 → allSucceed (okRuntime r 3) ∧ (okRuntime r 3).size = (3 : Nat) ∧
      (okRuntime r 3).rank = r) ∧
    ["Hello, I am rank 1 of 3 total ranks\n", "Hello, I am rank 0 of 3 total ranks\n",
      "Hello, I am rank 2 of 3 total ranks\n"].Perm
      (aggregateStdout 3 1 ["mpitest"] (fun r : Nat => okRuntime r 3)) ∧
    ["Hello, I am rank 1 of 3 total ranks\n", "Hello, I am rank 0 of 3 total ranks\n",
      "Hello, I am rank 2 of 3 total ranks\n"].length = 3 ∧
    ["Hello, I am rank 1 of 3 total ranks\n", "Hello, I am rank 0 of 3 total ranks\n",
      "Hello, I am rank 2 of 3 total ranks\n"].Nodup :=
  have hok : ∀ r : Nat, r < 3 → allSucceed (okRuntime r 3) ∧ (okRuntime r 3).size = (3 : Nat) ∧
      (okRuntime r 3).rank = r := fun _ _ => ⟨⟨rfl, rfl, rfl, rfl⟩, rfl, rfl⟩
  have hperm : ["Hello, I am rank 1 of 3 total ranks\n", "Hello, I am rank 0 of 3 total ranks\n",
      "Hello, I am rank 2 of 3 total ranks\n"].Perm
      (aggregateStdout 3 1 ["mpitest"] (fun r : Nat => okRuntime r 3)) := by decide
  have h := aggregate_greetings 3 1 ["mpitest"] (fun r : Nat => okRuntime r 3) hok _ hperm
  ⟨hok, hperm, h.1, h.2.1⟩

end MpiTest
